import Mathlib

/-!
Verification of the authentication core of the `ai-sdlc-ucd-tool-frontend`
repository: a shallow embedding of the OAuth2/PKCE transaction storage,
the auth-callback controller, the Redis session stores, the cookie
manager and the authorization-URL builder, together with theorems about
the behaviours documented in the specification.

The Redis key-value store is modelled as a function `String → Option α`;
each embedded operation returns its result together with the new store
and, where a claim needs it, the list of store operations performed.
JavaScript truthiness on the values that matter here (strings that may
be empty, nullable values, numeric EXISTS results) is modelled
explicitly, because several behaviours hinge on it.
-/

namespace UcdAuth

/-- A Redis-like key-value store holding values of type `α`. -/
abbrev KV (α : Type) := String → Option α

/-- The empty store. -/
def KV.empty {α : Type} : KV α := fun _ => none

/-- `SET key value` (TTL is not part of the functional model). -/
def KV.setKey {α : Type} (st : KV α) (k : String) (v : α) : KV α :=
  fun q => if q = k then some v else st q

/-- `DEL key`, returning the number of keys removed (0 or 1) and the new
store. -/
def KV.del {α : Type} (st : KV α) (k : String) : Nat × KV α :=
  if (st k).isSome then (1, fun q => if q = k then none else st q)
  else (0, st)

/-- `EXISTS key`, returning 1 when the key is present and 0 otherwise,
as the Redis command does. -/
def KV.existsCount {α : Type} (st : KV α) (k : String) : Nat :=
  if (st k).isSome then 1 else 0

/-- JavaScript truthiness of a string: only the empty string is falsy. -/
def jsTruthyStr (s : String) : Bool := s ≠ ""

/-- JavaScript truthiness of a nullable string (`null`/`undefined` and
`""` are falsy). -/
def jsTruthyOptStr : Option String → Bool
  | none => false
  | some s => s ≠ ""

/-- JavaScript truthiness of a number (0 is falsy). -/
def jsTruthyNat (n : Nat) : Bool := n ≠ 0

/-- A store read / write / delete, used to record which storage
operations a request performs. -/
inductive StoreOp
  | readKey (k : String)
  | writeKey (k : String)
  | deleteKey (k : String)
deriving DecidableEq, Repr

/-! ## `oauth-state-storage.js` (src/src/server/authentication) -/

/-- `OAUTH_CONSTANTS.STATE_KEY_PREFIX`. -/
def stateKeyPfx : String := "auth:state:"

/-- `OAUTH_CONSTANTS.PKCE_KEY_PREFIX`. -/
def pkceKeyPfx : String := "auth:pkce:"

/-- `OAUTH_CONSTANTS.STATE_TTL_SECONDS`. -/
def stateTtlSeconds : Nat := 300

/-- `storeStateParameter(state)`: `SET auth:state:{state} "1" EX 300`. -/
def storeStateParameter (state : String) (st : KV String) :
    KV String × List StoreOp :=
  let key := stateKeyPfx ++ state
  (KV.setKey st key "1", [StoreOp.writeKey key])

/-- `storePkceVerifier(state, codeVerifier)`:
`SET auth:pkce:{state} codeVerifier EX 300`. -/
def storePkceVerifier (state codeVerifier : String) (st : KV String) :
    KV String × List StoreOp :=
  let key := pkceKeyPfx ++ state
  (KV.setKey st key codeVerifier, [StoreOp.writeKey key])

/-- `validateStateParameter(state)`: `EXISTS` the state key; if the
count is truthy, `DEL` it; return `exists === 1`. -/
def validateStateParameter (state : String) (st : KV String) :
    Bool × KV String × List StoreOp :=
  let key := stateKeyPfx ++ state
  let ex := KV.existsCount st key
  if jsTruthyNat ex then
    (ex == 1, (KV.del st key).2, [StoreOp.readKey key, StoreOp.deleteKey key])
  else
    (ex == 1, st, [StoreOp.readKey key])

/-- `retrievePkceVerifier(state)`: `GET` the PKCE key; if the value is
truthy (note: the empty string is not), `DEL` it; return the value
(`null` when absent). -/
def retrievePkceVerifier (state : String) (st : KV String) :
    Option String × KV String × List StoreOp :=
  let key := pkceKeyPfx ++ state
  let codeVerifier := st key
  if jsTruthyOptStr codeVerifier then
    (codeVerifier, (KV.del st key).2,
      [StoreOp.readKey key, StoreOp.deleteKey key])
  else
    (codeVerifier, st, [StoreOp.readKey key])

theorem KV.setKey_same {α : Type} (st : KV α) (k : String) (v : α) :
    KV.setKey st k v k = some v := by
  simp [KV.setKey]

theorem KV.del_snd_same {α : Type} (st : KV α) (k : String)
    (h : (st k).isSome) : (KV.del st k).2 k = none := by
  simp [KV.del, h]

/-- C1. After `storeStateParameter s`, the first `validateStateParameter s`
returns true and removes the marker, the second returns false; on a
store that never held `s`, `validateStateParameter s` returns false and
returns the store unchanged. -/
theorem c1_state_one_time_use (s : String) (st st0 : KV String)
    (h0 : st0 (stateKeyPfx ++ s) = none) :
    (validateStateParameter s (storeStateParameter s st).1).1 = true
    ∧ (validateStateParameter s (storeStateParameter s st).1).2.1
        (stateKeyPfx ++ s) = none
    ∧ (validateStateParameter s
        (validateStateParameter s (storeStateParameter s st).1).2.1).1 = false
    ∧ (validateStateParameter s st0).1 = false
    ∧ (validateStateParameter s st0).2.1 = st0 := by
  simp [validateStateParameter, storeStateParameter, KV.existsCount,
    KV.setKey, KV.del, jsTruthyNat, h0]

theorem c1_state_one_time_use_witness :
    (KV.empty : KV String) (stateKeyPfx ++ "abc123") = none
    ∧ ((validateStateParameter "abc123"
          (storeStateParameter "abc123" KV.empty).1).1 = true
      ∧ (validateStateParameter "abc123"
          (storeStateParameter "abc123" KV.empty).1).2.1
          (stateKeyPfx ++ "abc123") = none
      ∧ (validateStateParameter "abc123"
          (validateStateParameter "abc123"
            (storeStateParameter "abc123" KV.empty).1).2.1).1 = false
      ∧ (validateStateParameter "abc123" KV.empty).1 = false
      ∧ (validateStateParameter "abc123" KV.empty).2.1 = KV.empty) :=
  ⟨rfl, c1_state_one_time_use "abc123" KV.empty KV.empty rfl⟩

/-- C2 counterexample. The claim quantifies over every verifier `v`, but
for `v = ""` the stored value is falsy in JavaScript, so
`retrievePkceVerifier` neither deletes the entry (nothing prevents
reuse) nor makes the second call return null: both calls return the
stored empty string. -/
theorem c2_counterexample :
    (retrievePkceVerifier "s1" (storePkceVerifier "s1" "" KV.empty).1).1
        = some ""
    ∧ (retrievePkceVerifier "s1"
        (retrievePkceVerifier "s1"
          (storePkceVerifier "s1" "" KV.empty).1).2.1).1 ≠ none
    ∧ (retrievePkceVerifier "s1"
        (retrievePkceVerifier "s1"
          (storePkceVerifier "s1" "" KV.empty).1).2.1).1 = some "" := by
  refine ⟨rfl, ?_, rfl⟩
  intro h
  simp [retrievePkceVerifier, storePkceVerifier, KV.setKey,
    jsTruthyOptStr] at h

/-- C2 (amended to non-empty verifiers). After
`storePkceVerifier s v` with `v ≠ ""`, the first
`retrievePkceVerifier s` returns `v` and removes the entry, the second
returns null; on a store that never held `s`, it returns null and
returns the store unchanged. -/
theorem c2_pkce_one_time_use (s v : String) (st st0 : KV String)
    (hv : v ≠ "") (h0 : st0 (pkceKeyPfx ++ s) = none) :
    (retrievePkceVerifier s (storePkceVerifier s v st).1).1 = some v
    ∧ (retrievePkceVerifier s (storePkceVerifier s v st).1).2.1
        (pkceKeyPfx ++ s) = none
    ∧ (retrievePkceVerifier s
        (retrievePkceVerifier s (storePkceVerifier s v st).1).2.1).1 = none
    ∧ (retrievePkceVerifier s st0).1 = none
    ∧ (retrievePkceVerifier s st0).2.1 = st0 := by
  simp [retrievePkceVerifier, storePkceVerifier, KV.setKey, KV.del,
    jsTruthyOptStr, h0, hv]

theorem c2_pkce_one_time_use_witness :
    ("v1" ≠ "" ∧ (KV.empty : KV String) (pkceKeyPfx ++ "s1") = none)
    ∧ ((retrievePkceVerifier "s1"
          (storePkceVerifier "s1" "v1" KV.empty).1).1 = some "v1"
      ∧ (retrievePkceVerifier "s1"
          (storePkceVerifier "s1" "v1" KV.empty).1).2.1
          (pkceKeyPfx ++ "s1") = none
      ∧ (retrievePkceVerifier "s1"
          (retrievePkceVerifier "s1"
            (storePkceVerifier "s1" "v1" KV.empty).1).2.1).1 = none
      ∧ (retrievePkceVerifier "s1" KV.empty).1 = none
      ∧ (retrievePkceVerifier "s1" KV.empty).2.1 = KV.empty) :=
  ⟨⟨by decide, rfl⟩,
    c2_pkce_one_time_use "s1" "v1" KV.empty KV.empty (by decide) rfl⟩

/-! ## `controller.js` (src/src/server/login): `authCallbackController` -/

/-- `AUTHENTICATION_MESSAGES.AZURE_AD_UNAVAILABLE` (rendered on the
IDP-error branch of the callback). -/
def azureAdUnavailableMsg : String :=
  "Authentication service is temporarily unavailable. Please try again later."

/-- `AUTHENTICATION_MESSAGES.INVALID_AUTHENTICATION_RESPONSE`. -/
def invalidAuthenticationResponseMsg : String :=
  "Invalid authentication response. Please try again."

/-- `AUTHENTICATION_MESSAGES.AUTHENTICATION_REQUEST_EXPIRED`. -/
def authenticationRequestExpiredMsg : String :=
  "Authentication request expired. Please try again."

/-- `AUTHENTICATION_MESSAGES.AUTHENTICATION_FAILED`. -/
def authenticationFailedMsg : String :=
  "Authentication failed. Please try again."

/-- `AUTHENTICATION_ROUTES.HOME_REDIRECT_PATH`. -/
def homeRedirectPath : String := "/"

/-- What the callback handler returns to Hapi: an error view with the
given `errorMessage`, or a redirect. -/
inductive HandlerOutcome
  | view (errorMessage : String)
  | redirect (path : String)
deriving DecidableEq, Repr

/-- The observable effect of one `authCallbackController` request:
its outcome, the key-value store afterwards, the storage operations it
performed, whether `exchangeCodeForTokens` was invoked, and whether a
session record write happened. -/
structure CallbackResult where
  outcome : HandlerOutcome
  store : KV String
  ops : List StoreOp
  exchangeCalled : Bool
  sessionWritten : Bool

/-- `authCallbackController.handler`, embedded over the query
parameters `code`, `state`, `error` and the store. The token exchange
is an external HTTP call, abstracted by the oracle `exchangeOk`; the
session id and serialized record produced by `createSession` on success
are abstracted as the parameters `newSessionId` and `sessionJson` (their
contents are irrelevant to the claims about this handler). Branches
mirror the source: provider `error` → unavailable view; missing
`code`/`state` → invalid-response view; failed state validation or
missing PKCE verifier → request-expired view; failed exchange (caught) →
authentication-failed view; success → session write, then redirect home. -/
def authCallbackController (code state error : Option String)
    (exchangeOk : Bool) (newSessionId sessionJson : String)
    (st : KV String) : CallbackResult :=
  if jsTruthyOptStr error then
    { outcome := .view azureAdUnavailableMsg, store := st, ops := [],
      exchangeCalled := false, sessionWritten := false }
  else if !jsTruthyOptStr code || !jsTruthyOptStr state then
    { outcome := .view invalidAuthenticationResponseMsg, store := st,
      ops := [], exchangeCalled := false, sessionWritten := false }
  else
    let stateStr := state.getD ""
    let v := validateStateParameter stateStr st
    if !v.1 then
      { outcome := .view authenticationRequestExpiredMsg, store := v.2.1,
        ops := v.2.2, exchangeCalled := false, sessionWritten := false }
    else
      let r := retrievePkceVerifier stateStr v.2.1
      if !jsTruthyOptStr r.1 then
        { outcome := .view authenticationRequestExpiredMsg, store := r.2.1,
          ops := v.2.2 ++ r.2.2, exchangeCalled := false,
          sessionWritten := false }
      else if !exchangeOk then
        { outcome := .view authenticationFailedMsg, store := r.2.1,
          ops := v.2.2 ++ r.2.2, exchangeCalled := true,
          sessionWritten := false }
      else
        let key := "session:" ++ newSessionId
        { outcome := .redirect homeRedirectPath,
          store := KV.setKey r.2.1 key sessionJson,
          ops := v.2.2 ++ r.2.2 ++ [StoreOp.writeKey key],
          exchangeCalled := true, sessionWritten := true }

/-- C3. A callback whose state was never stored (or already consumed)
renders the request-expired view; the token exchange is never invoked
and no session record is written (the store is unchanged). -/
theorem c3_unstored_state_expired (code state error : Option String)
    (exchangeOk : Bool) (sid sjson : String) (st : KV String)
    (herr : jsTruthyOptStr error = false)
    (hcode : jsTruthyOptStr code = true)
    (hstate : jsTruthyOptStr state = true)
    (hns : st (stateKeyPfx ++ state.getD "") = none) :
    (authCallbackController code state error exchangeOk sid sjson st).outcome
        = .view authenticationRequestExpiredMsg
    ∧ (authCallbackController code state error exchangeOk sid sjson
        st).exchangeCalled = false
    ∧ (authCallbackController code state error exchangeOk sid sjson
        st).sessionWritten = false
    ∧ (authCallbackController code state error exchangeOk sid sjson
        st).store = st := by
  simp [authCallbackController, herr, hcode, hstate,
    validateStateParameter, KV.existsCount, jsTruthyNat, hns]

theorem c3_unstored_state_expired_witness :
    (jsTruthyOptStr none = false ∧ jsTruthyOptStr (some "authcode") = true
      ∧ jsTruthyOptStr (some "nostate") = true
      ∧ (KV.empty : KV String)
          (stateKeyPfx ++ (some "nostate").getD "") = none)
    ∧ ((authCallbackController (some "authcode") (some "nostate") none
          true "sid" "sj" KV.empty).outcome
        = .view authenticationRequestExpiredMsg
      ∧ (authCallbackController (some "authcode") (some "nostate") none
          true "sid" "sj" KV.empty).exchangeCalled = false
      ∧ (authCallbackController (some "authcode") (some "nostate") none
          true "sid" "sj" KV.empty).sessionWritten = false
      ∧ (authCallbackController (some "authcode") (some "nostate") none
          true "sid" "sj" KV.empty).store = KV.empty) :=
  ⟨⟨rfl, by decide, by decide, rfl⟩,
    c3_unstored_state_expired (some "authcode") (some "nostate") none
      true "sid" "sj" KV.empty rfl (by decide) (by decide) rfl⟩

/-- C4. A callback carrying a non-empty `error` parameter renders the
identity-provider-error view and performs no storage operation at all:
no store read, write or delete, no token exchange, no session write,
and the store is returned unchanged. -/
theorem c4_idp_error_no_storage (code state error : Option String)
    (exchangeOk : Bool) (sid sjson : String) (st : KV String)
    (herr : jsTruthyOptStr error = true) :
    (authCallbackController code state error exchangeOk sid sjson st).outcome
        = .view azureAdUnavailableMsg
    ∧ (authCallbackController code state error exchangeOk sid sjson
        st).ops = []
    ∧ (authCallbackController code state error exchangeOk sid sjson
        st).exchangeCalled = false
    ∧ (authCallbackController code state error exchangeOk sid sjson
        st).sessionWritten = false
    ∧ (authCallbackController code state error exchangeOk sid sjson
        st).store = st := by
  simp [authCallbackController, herr]

theorem c4_idp_error_no_storage_witness :
    jsTruthyOptStr (some "access_denied") = true
    ∧ ((authCallbackController none none (some "access_denied")
          true "sid" "sj" KV.empty).outcome = .view azureAdUnavailableMsg
      ∧ (authCallbackController none none (some "access_denied")
          true "sid" "sj" KV.empty).ops = []
      ∧ (authCallbackController none none (some "access_denied")
          true "sid" "sj" KV.empty).exchangeCalled = false
      ∧ (authCallbackController none none (some "access_denied")
          true "sid" "sj" KV.empty).sessionWritten = false
      ∧ (authCallbackController none none (some "access_denied")
          true "sid" "sj" KV.empty).store = KV.empty) :=
  ⟨by decide,
    c4_idp_error_no_storage none none (some "access_denied") true
      "sid" "sj" KV.empty (by decide)⟩

/-! ## Redis Session Store class (`SessionStore`, unnamed source file)

The payload handed to `createSession` is a JavaScript object whose four
required fields may each be missing; a missing field and an empty
string are both falsy, which is exactly what `_validateSessionData`
checks field by field. `JSON.stringify` is modelled for string-valued
fields (missing fields are skipped, as `JSON.stringify` does), with the
full string escaping the ECMAScript algorithm performs: quote,
backslash, the named control escapes `\b \t \n \f \r`, and `\u00XX`
for the remaining control characters. The `.length` the size check
reads is a JavaScript string length, i.e. a count of UTF-16 code
units — not bytes — which is modelled explicitly because the two
measures diverge on non-ASCII payloads. -/

/-- The session payload validated by `SessionStore.createSession`. -/
structure SessionPayload where
  user_id : Option String
  access_token : Option String
  refresh_token : Option String
  token_expiry : Option String
deriving DecidableEq, Repr

/-- A field is rejected when absent or empty (JavaScript falsy). -/
def jsFalsyField : Option String → Bool
  | none => true
  | some s => s = ""

/-- Lowercase hexadecimal digit, as in JSON `\u00XX` escapes. -/
def hexDigitLower (n : Nat) : Char :=
  if n < 10 then Char.ofNat (48 + n) else Char.ofNat (87 + n)

/-- JSON string escaping as `JSON.stringify` performs it: quote,
backslash, the named control escapes, and `\u00XX` for the remaining
control characters; everything else passes through. -/
def jsonEscapeChar (c : Char) : String :=
  if c = '"' then "\\\""
  else if c = '\\' then "\\\\"
  else if c = Char.ofNat 8 then "\\b"
  else if c = Char.ofNat 9 then "\\t"
  else if c = '\n' then "\\n"
  else if c = Char.ofNat 12 then "\\f"
  else if c = Char.ofNat 13 then "\\r"
  else if c.toNat < 32 then
    "\\u00" ++ String.singleton (hexDigitLower (c.toNat / 16))
      ++ String.singleton (hexDigitLower (c.toNat % 16))
  else String.singleton c

/-- A JSON string literal. -/
def jsonStrLit (s : String) : String :=
  "\"" ++ String.join (s.data.map jsonEscapeChar) ++ "\""

/-- Join serialized JSON members with `,`, as `JSON.stringify` does. -/
def joinComma : List String → String
  | [] => ""
  | [p] => p
  | p :: ps => p ++ "," ++ joinComma ps

/-- `JSON.stringify` of a session payload: present fields only, in
object-key order. -/
def SessionPayload.stringify (d : SessionPayload) : String :=
  let fields := [("user_id", d.user_id), ("access_token", d.access_token),
    ("refresh_token", d.refresh_token), ("token_expiry", d.token_expiry)]
  let parts := fields.filterMap fun p =>
    p.2.map fun v => jsonStrLit p.1 ++ ":" ++ jsonStrLit v
  "\x7b" ++ joinComma parts ++ "\x7d"

/-- The UTF-16 code units one character occupies in a JavaScript
string. -/
def utf16Units (c : Char) : Nat := if c.toNat < 65536 then 1 else 2

/-- JavaScript `String.prototype.length`: the count of UTF-16 code
units. This is the measure `JSON.stringify(sessionData).length`
actually reads. -/
def utf16Length (s : String) : Nat := (s.data.map utf16Units).sum

/-- The UTF-8 byte length of a string — the "bytes" measure the claim
and the specification state the 50,000 bound in. -/
def utf8ByteLength (s : String) : Nat := (s.data.map Char.utf8Size).sum

/-- `SessionStore._validateSessionData`: throws when any of the four
required fields is falsy. -/
def validateSessionData (d : SessionPayload) : Except String Unit :=
  if jsFalsyField d.user_id || jsFalsyField d.access_token
      || jsFalsyField d.refresh_token || jsFalsyField d.token_expiry then
    .error "Invalid session data: missing required fields"
  else .ok ()

/-- `SessionStore._validateSessionSize`: throws when
`JSON.stringify(sessionData).length` — a UTF-16 code-unit count —
exceeds 50000. -/
def validateSessionSize (d : SessionPayload) : Except String Unit :=
  if utf16Length d.stringify > 50000 then
    .error "Session data exceeds maximum size limit"
  else .ok ()

/-- `SessionStore.createSession(sessionId, sessionData)`: validate the
payload, validate its size, then `SETEX session:{id}`; a validation
error is logged and rethrown, leaving the store untouched. -/
def SessionStore.createSession (sessionId : String) (d : SessionPayload)
    (st : KV String) : Except String Bool × KV String :=
  match validateSessionData d with
  | .error e => (.error e, st)
  | .ok _ =>
    match validateSessionSize d with
    | .error e => (.error e, st)
    | .ok _ =>
      (.ok true, KV.setKey st ("session:" ++ sessionId) d.stringify)

/-- `SessionStore.sessionExists(sessionId)`: `EXISTS session:{id} === 1`. -/
def SessionStore.sessionExists (sessionId : String) (st : KV String) :
    Bool :=
  KV.existsCount st ("session:" ++ sessionId) == 1

/-- Whether an `Except` is the error case (a thrown JS error). -/
def exceptIsError {α : Type} : Except String α → Bool
  | .error _ => true
  | .ok _ => false

theorem utf16Length_append (a b : String) :
    utf16Length (a ++ b) = utf16Length a + utf16Length b := by
  simp [utf16Length, String.data_append]

theorem utf8ByteLength_append (a b : String) :
    utf8ByteLength (a ++ b) = utf8ByteLength a + utf8ByteLength b := by
  simp [utf8ByteLength, String.data_append]

theorem utf16Length_foldl_append (l : List String) (acc : String) :
    utf16Length (List.foldl (fun r s => r ++ s) acc l)
    = utf16Length acc + (l.map utf16Length).sum := by
  induction l generalizing acc with
  | nil => simp
  | cons s t ih =>
    simp [List.foldl, ih, utf16Length_append]
    omega

theorem utf8ByteLength_foldl_append (l : List String) (acc : String) :
    utf8ByteLength (List.foldl (fun r s => r ++ s) acc l)
    = utf8ByteLength acc + (l.map utf8ByteLength).sum := by
  induction l generalizing acc with
  | nil => simp
  | cons s t ih =>
    simp [List.foldl, ih, utf8ByteLength_append]
    omega

theorem utf16Length_empty : utf16Length "" = 0 := rfl

theorem utf8ByteLength_empty : utf8ByteLength "" = 0 := rfl

theorem utf16Length_join (l : List String) :
    utf16Length (String.join l) = (l.map utf16Length).sum := by
  have h := utf16Length_foldl_append l ""
  simpa [String.join, utf16Length_empty] using h

theorem utf8ByteLength_join (l : List String) :
    utf8ByteLength (String.join l) = (l.map utf8ByteLength).sum := by
  have h := utf8ByteLength_foldl_append l ""
  simpa [String.join, utf8ByteLength_empty] using h

theorem utf16Length_singleton (c : Char) :
    utf16Length (String.singleton c) = utf16Units c := by
  simp [utf16Length, String.singleton]

theorem utf8ByteLength_singleton (c : Char) :
    utf8ByteLength (String.singleton c) = Char.utf8Size c := by
  simp [utf8ByteLength, String.singleton]

/-- U+20AC: one UTF-16 code unit but three UTF-8 bytes. -/
def euroChar : Char := Char.ofNat 8364

/-- An access token of 17000 such characters. Its JSON string literal
is 51002 UTF-8 bytes long but only 17002 UTF-16 code units long. -/
def bigToken : String := String.mk (List.replicate 17000 euroChar)

/-- The C5 counterexample payload: all four required fields present and
non-empty; the serialization exceeds 50,000 bytes while staying well
under 50,000 UTF-16 code units. -/
def c5Payload : SessionPayload :=
  SessionPayload.mk (some "u") (some bigToken) (some "r") (some "t")

theorem bigToken_ne_empty : bigToken ≠ "" := by
  intro h
  have hd : List.replicate 17000 euroChar = ([] : List Char) :=
    congrArg String.data h
  have hlen := congrArg List.length hd
  rw [List.length_replicate, List.length_nil] at hlen
  exact absurd hlen (by decide)

theorem jsonStrLit_bigToken_utf16 :
    utf16Length (jsonStrLit bigToken) = 17002 := by
  rw [jsonStrLit,
    show bigToken.data = List.replicate 17000 euroChar from rfl,
    List.map_replicate,
    show jsonEscapeChar euroChar = String.singleton euroChar from by decide]
  rw [utf16Length_append, utf16Length_append, utf16Length_join,
    List.map_replicate, utf16Length_singleton, List.sum_const_nat,
    show utf16Units euroChar = 1 from rfl,
    show utf16Length "\"" = 1 from rfl]

theorem jsonStrLit_bigToken_utf8 :
    utf8ByteLength (jsonStrLit bigToken) = 51002 := by
  rw [jsonStrLit,
    show bigToken.data = List.replicate 17000 euroChar from rfl,
    List.map_replicate,
    show jsonEscapeChar euroChar = String.singleton euroChar from by decide]
  rw [utf8ByteLength_append, utf8ByteLength_append, utf8ByteLength_join,
    List.map_replicate, utf8ByteLength_singleton, List.sum_const_nat,
    show Char.utf8Size euroChar = 3 from rfl,
    show utf8ByteLength "\"" = 1 from rfl]

theorem c5Payload_stringify_utf16 :
    utf16Length (SessionPayload.stringify c5Payload) = 17072 := by
  have e : SessionPayload.stringify c5Payload
      = "\x7b" ++ joinComma
          [jsonStrLit "user_id" ++ ":" ++ jsonStrLit "u",
            jsonStrLit "access_token" ++ ":" ++ jsonStrLit bigToken,
            jsonStrLit "refresh_token" ++ ":" ++ jsonStrLit "r",
            jsonStrLit "token_expiry" ++ ":" ++ jsonStrLit "t"]
        ++ "\x7d" := rfl
  rw [e]
  simp only [joinComma, utf16Length_append]
  rw [jsonStrLit_bigToken_utf16,
    show utf16Length (jsonStrLit "user_id") = 9 from by decide,
    show utf16Length (jsonStrLit "u") = 3 from by decide,
    show utf16Length (jsonStrLit "access_token") = 14 from by decide,
    show utf16Length (jsonStrLit "refresh_token") = 15 from by decide,
    show utf16Length (jsonStrLit "r") = 3 from by decide,
    show utf16Length (jsonStrLit "token_expiry") = 14 from by decide,
    show utf16Length (jsonStrLit "t") = 3 from by decide,
    show utf16Length ":" = 1 from rfl,
    show utf16Length "," = 1 from rfl,
    show utf16Length "\x7b" = 1 from rfl,
    show utf16Length "\x7d" = 1 from rfl]

theorem c5Payload_stringify_utf8 :
    utf8ByteLength (SessionPayload.stringify c5Payload) = 51072 := by
  have e : SessionPayload.stringify c5Payload
      = "\x7b" ++ joinComma
          [jsonStrLit "user_id" ++ ":" ++ jsonStrLit "u",
            jsonStrLit "access_token" ++ ":" ++ jsonStrLit bigToken,
            jsonStrLit "refresh_token" ++ ":" ++ jsonStrLit "r",
            jsonStrLit "token_expiry" ++ ":" ++ jsonStrLit "t"]
        ++ "\x7d" := rfl
  rw [e]
  simp only [joinComma, utf8ByteLength_append]
  rw [jsonStrLit_bigToken_utf8,
    show utf8ByteLength (jsonStrLit "user_id") = 9 from by decide,
    show utf8ByteLength (jsonStrLit "u") = 3 from by decide,
    show utf8ByteLength (jsonStrLit "access_token") = 14 from by decide,
    show utf8ByteLength (jsonStrLit "refresh_token") = 15 from by decide,
    show utf8ByteLength (jsonStrLit "r") = 3 from by decide,
    show utf8ByteLength (jsonStrLit "token_expiry") = 14 from by decide,
    show utf8ByteLength (jsonStrLit "t") = 3 from by decide,
    show utf8ByteLength ":" = 1 from rfl,
    show utf8ByteLength "," = 1 from rfl,
    show utf8ByteLength "\x7b" = 1 from rfl,
    show utf8ByteLength "\x7d" = 1 from rfl]

theorem createSession_ok (id : String) (d : SessionPayload)
    (st : KV String)
    (h1 : validateSessionData d = .ok ())
    (h2 : validateSessionSize d = .ok ()) :
    SessionStore.createSession id d st
    = (.ok true, KV.setKey st ("session:" ++ id) d.stringify) := by
  unfold SessionStore.createSession
  rw [h1, h2]

/-- C5 counterexample. The claim bounds the serialization in bytes, but
the code compares `JSON.stringify(sessionData).length` — UTF-16 code
units. This payload has every required field non-empty and serializes
to 51072 UTF-8 bytes, beyond the claimed 50,000-byte bound, yet only
17072 code units: `createSession` does not raise, writes the record,
and `sessionExists` afterwards is true — contradicting "raises an error
and writes nothing". -/
theorem c5_counterexample :
    utf8ByteLength (SessionPayload.stringify c5Payload) > 50000
    ∧ exceptIsError
        (SessionStore.createSession "sid1" c5Payload KV.empty).1 = false
    ∧ (SessionStore.createSession "sid1" c5Payload KV.empty).2
        ("session:" ++ "sid1") = some (SessionPayload.stringify c5Payload)
    ∧ SessionStore.sessionExists "sid1"
        (SessionStore.createSession "sid1" c5Payload KV.empty).2 = true := by
  have hfalsy : jsFalsyField (some bigToken) = false := by
    simp only [jsFalsyField]
    exact decide_eq_false bigToken_ne_empty
  have hdata : validateSessionData c5Payload = .ok () := by
    simp only [validateSessionData,
      show c5Payload.user_id = some "u" from rfl,
      show c5Payload.access_token = some bigToken from rfl,
      show c5Payload.refresh_token = some "r" from rfl,
      show c5Payload.token_expiry = some "t" from rfl, hfalsy,
      show jsFalsyField (some "u") = false from rfl,
      show jsFalsyField (some "r") = false from rfl,
      show jsFalsyField (some "t") = false from rfl,
      Bool.or_self, Bool.or_false, Bool.false_or]
    rfl
  have hsize : validateSessionSize c5Payload = .ok () := by
    simp only [validateSessionSize, c5Payload_stringify_utf16]
    rfl
  refine ⟨?_, ?_, ?_, ?_⟩
  · rw [c5Payload_stringify_utf8]
    omega
  · rw [createSession_ok "sid1" c5Payload KV.empty hdata hsize]
    rfl
  · rw [createSession_ok "sid1" c5Payload KV.empty hdata hsize]
    exact KV.setKey_same KV.empty ("session:" ++ "sid1")
      (SessionPayload.stringify c5Payload)
  · rw [createSession_ok "sid1" c5Payload KV.empty hdata hsize]
    rfl

/-- C5 (amended: the size bound is 50,000 UTF-16 code units of the
serialized payload — JavaScript string length, equal to bytes only for
ASCII payloads — not 50,000 bytes). `SessionStore.createSession` on a
payload with a missing or empty required field, or serializing beyond
50,000 code units, throws and writes nothing: the store is unchanged,
and when the key was absent before, `sessionExists` is still false
afterwards. -/
theorem c5_create_rejects_invalid_payload (id : String)
    (d : SessionPayload) (st : KV String)
    (hbad : jsFalsyField d.user_id = true
      ∨ jsFalsyField d.access_token = true
      ∨ jsFalsyField d.refresh_token = true
      ∨ jsFalsyField d.token_expiry = true
      ∨ utf16Length d.stringify > 50000)
    (habs : st ("session:" ++ id) = none) :
    exceptIsError (SessionStore.createSession id d st).1 = true
    ∧ (SessionStore.createSession id d st).2 = st
    ∧ SessionStore.sessionExists id (SessionStore.createSession id d st).2
        = false := by
  have hfail : exceptIsError (SessionStore.createSession id d st).1 = true
      ∧ (SessionStore.createSession id d st).2 = st := by
    rcases hbad with h | h | h | h | h
    · simp [SessionStore.createSession, validateSessionData, h,
        exceptIsError]
    · simp [SessionStore.createSession, validateSessionData, h,
        exceptIsError]
    · simp [SessionStore.createSession, validateSessionData, h,
        exceptIsError]
    · simp [SessionStore.createSession, validateSessionData, h,
        exceptIsError]
    · by_cases hv : jsFalsyField d.user_id || jsFalsyField d.access_token
        || jsFalsyField d.refresh_token || jsFalsyField d.token_expiry
      · simp [SessionStore.createSession, validateSessionData, hv,
          exceptIsError]
      · simp [SessionStore.createSession, validateSessionData, hv,
          validateSessionSize, h, exceptIsError]
  refine ⟨hfail.1, hfail.2, ?_⟩
  rw [hfail.2]
  simp [SessionStore.sessionExists, KV.existsCount, habs]

theorem c5_create_rejects_invalid_payload_witness :
    ((jsFalsyField (SessionPayload.mk none (some "a") (some "r")
          (some "t")).user_id = true
      ∨ jsFalsyField (SessionPayload.mk none (some "a") (some "r")
          (some "t")).access_token = true
      ∨ jsFalsyField (SessionPayload.mk none (some "a") (some "r")
          (some "t")).refresh_token = true
      ∨ jsFalsyField (SessionPayload.mk none (some "a") (some "r")
          (some "t")).token_expiry = true
      ∨ utf16Length (SessionPayload.mk none (some "a") (some "r")
          (some "t")).stringify > 50000)
      ∧ (KV.empty : KV String) ("session:" ++ "sid1") = none)
    ∧ (exceptIsError (SessionStore.createSession "sid1"
          (SessionPayload.mk none (some "a") (some "r") (some "t"))
          KV.empty).1 = true
      ∧ (SessionStore.createSession "sid1"
          (SessionPayload.mk none (some "a") (some "r") (some "t"))
          KV.empty).2 = KV.empty
      ∧ SessionStore.sessionExists "sid1"
          (SessionStore.createSession "sid1"
            (SessionPayload.mk none (some "a") (some "r") (some "t"))
            KV.empty).2 = false) :=
  ⟨⟨Or.inl (by decide), rfl⟩,
    c5_create_rejects_invalid_payload "sid1"
      (SessionPayload.mk none (some "a") (some "r") (some "t"))
      KV.empty (Or.inl (by decide)) rfl⟩

/-! ## Session deletion (C9)

Two deletion operations exist: `deleteSession` in
`session-manager.js`, which returns the Redis `DEL` count, and
`SessionStore.deleteSession`, which logs the not-found case and always
returns the boolean `true`. The JavaScript return value of the latter
is modelled as a `JsValue` so that "returns the count" is expressible
about it. Infrastructure failures of the underlying client are outside
the functional store model, so neither embedded operation has a throwing
path — matching the claim that a delete on an absent key does not fail. -/

/-- A JavaScript value as returned by the delete operations. -/
inductive JsValue
  | jbool (b : Bool)
  | jnum (n : Nat)
deriving DecidableEq, Repr

/-- `deleteSession(sessionId, h)` from `session-manager.js`: `DEL
session:{id}`, clear the cookie when a toolkit is supplied, and return
the `DEL` count. The third component records whether the cookie was
cleared. -/
def sessionManagerDeleteSession {α : Type} (sessionId : String)
    (hasToolkit : Bool) (st : KV α) : Nat × KV α × Bool :=
  let d := KV.del st ("session:" ++ sessionId)
  (d.1, d.2, hasToolkit)

/-- `SessionStore.deleteSession(sessionId)`: `DEL session:{id}`, log
whether a key was found, and return `true` either way. -/
def SessionStore.deleteSession (sessionId : String) (st : KV String) :
    JsValue × KV String :=
  let d := KV.del st ("session:" ++ sessionId)
  (JsValue.jbool true, d.2)

/-- C9 counterexample. `SessionStore.deleteSession` does not return the
count of keys removed: on a store holding the key it removes one key
yet returns the boolean `true`, not the number 1 — so the caller of this
variant cannot observe "zero removed" on a second call either. -/
theorem c9_counterexample :
    (SessionStore.deleteSession "sid"
        (KV.setKey KV.empty "session:sid" "data")).1 ≠ JsValue.jnum 1
    ∧ (SessionStore.deleteSession "sid"
        (KV.setKey KV.empty "session:sid" "data")).1 = JsValue.jbool true
    ∧ (SessionStore.deleteSession "sid"
        (KV.setKey KV.empty "session:sid" "data")).2 "session:sid"
        = none := by
  refine ⟨by decide, rfl, ?_⟩
  simp [SessionStore.deleteSession, KV.del, KV.setKey]

/-- C9 (amended). Both deletion operations are idempotent and total for
the caller. `session-manager.js`'s `deleteSession` returns the count of
keys removed (0 or 1, exactly the `EXISTS` count beforehand), a second
consecutive call returns 0, and a call on an absent key returns 0
without failing. `SessionStore.deleteSession` removes the key just the
same but always returns the boolean `true`, reporting the not-found
case only in its log; deleting twice leaves the same store as deleting
once. -/
theorem c9_delete_idempotent (id : String) (ht : Bool) (st : KV String) :
    (sessionManagerDeleteSession id ht st).1
        = KV.existsCount st ("session:" ++ id)
    ∧ (sessionManagerDeleteSession id ht st).1 ≤ 1
    ∧ (sessionManagerDeleteSession id ht
        (sessionManagerDeleteSession id ht st).2.1).1 = 0
    ∧ (SessionStore.deleteSession id st).1 = JsValue.jbool true
    ∧ (SessionStore.deleteSession id
        (SessionStore.deleteSession id st).2).1 = JsValue.jbool true
    ∧ (SessionStore.deleteSession id
        (SessionStore.deleteSession id st).2).2
        = (SessionStore.deleteSession id st).2 := by
  refine ⟨?_, ?_, ?_, rfl, rfl, ?_⟩
  · by_cases h : (st ("session:" ++ id)).isSome
    · simp [sessionManagerDeleteSession, KV.del, KV.existsCount, h]
    · simp [sessionManagerDeleteSession, KV.del, KV.existsCount, h]
  · by_cases h : (st ("session:" ++ id)).isSome
    · simp [sessionManagerDeleteSession, KV.del, h]
    · simp [sessionManagerDeleteSession, KV.del, h]
  · by_cases h : (st ("session:" ++ id)).isSome
    · simp [sessionManagerDeleteSession, KV.del, h]
    · simp [sessionManagerDeleteSession, KV.del, h]
  · by_cases h : (st ("session:" ++ id)).isSome
    · simp [SessionStore.deleteSession, KV.del, h]
    · simp [SessionStore.deleteSession, KV.del, h]

/-! ## Session retrieval (C6, C10)

Two `getSession` variants exist: one in
`src/src/server/common/helpers/session-manager.js` and one in
`src/src/server/login/authCallbackService.js`. Stored values are JSON
strings; `JSON.parse` either throws (the catch returns null) or yields
a record, modelled by `StoredJson`. `new Date(s)` is abstracted as a
date-parse function `String → JsDate`, where `JsDate.invalid` is
JavaScript's Invalid Date (all numeric comparisons on it are false),
and the current time is an integer millisecond count. -/

/-- The result of `new Date(s)`. -/
inductive JsDate
  | invalid
  | valid (ms : Int)
deriving DecidableEq, Repr

/-- A parsed session record; `expires_at` is the raw string field,
absent when the JSON object lacks it. -/
structure SessionRecord where
  session_id : String
  session_token : String
  created_at : String
  expires_at : Option String
deriving DecidableEq, Repr

/-- A stored value: either JSON that fails to parse or a record. -/
inductive StoredJson
  | malformed
  | record (r : SessionRecord)
deriving DecidableEq, Repr

/-- `getSession(sessionId)` from `session-manager.js`: falsy id → null
with no store read; absent key, unparseable JSON, missing/falsy
`expires_at`, invalid date, or `now >= expires_at` → null; otherwise
the record. It never deletes. The `Nat` component counts store reads. -/
def sessionManagerGetSession (parseDate : String → JsDate) (now : Int)
    (sessionId : Option String) (st : KV StoredJson) :
    Option SessionRecord × KV StoredJson × Nat :=
  if !jsTruthyOptStr sessionId then (none, st, 0)
  else
    let key := "session:" ++ sessionId.getD ""
    match st key with
    | none => (none, st, 1)
    | some .malformed => (none, st, 1)
    | some (.record r) =>
      match r.expires_at with
      | none => (none, st, 1)
      | some raw =>
        if raw = "" then (none, st, 1)
        else
          match parseDate raw with
          | .invalid => (none, st, 1)
          | .valid t => if now ≥ t then (none, st, 1) else (some r, st, 1)

/-- `getSession(sessionId)` from `authCallbackService.js`: falsy id →
null with no store read; absent key or unparseable JSON → null; when
`new Date(expires_at) < now`, best-effort `DEL` of the key and null;
otherwise the record (an invalid or missing date compares false, so
the record is returned). The `Nat` component counts store reads. -/
def authCallbackGetSession (parseDate : String → JsDate) (now : Int)
    (sessionId : Option String) (st : KV StoredJson) :
    Option SessionRecord × KV StoredJson × Nat :=
  if !jsTruthyOptStr sessionId then (none, st, 0)
  else
    let key := "session:" ++ sessionId.getD ""
    match st key with
    | none => (none, st, 1)
    | some .malformed => (none, st, 1)
    | some (.record r) =>
      let expiresAt := match r.expires_at with
        | none => JsDate.invalid
        | some raw => parseDate raw
      match expiresAt with
      | .invalid => (some r, st, 1)
      | .valid t =>
        if t < now then (none, (KV.del st key).2, 1) else (some r, st, 1)

/-- C6 counterexample. The claim, over both cited `getSession`
implementations, says an expired record is deleted. The
`session-manager.js` variant returns null on an expired record but
leaves it in the store: here the record with `expires_at` parsing to
time 0 is read at time 1000, null comes back, and the key still holds
the record. -/
theorem c6_counterexample :
    (sessionManagerGetSession (fun _ => JsDate.valid 0) 1000 (some "sid")
        (KV.setKey KV.empty "session:sid"
          (StoredJson.record (SessionRecord.mk "sid" "tok" "c"
            (some "1970-01-01T00:00:00.000Z"))))).1 = none
    ∧ (sessionManagerGetSession (fun _ => JsDate.valid 0) 1000 (some "sid")
        (KV.setKey KV.empty "session:sid"
          (StoredJson.record (SessionRecord.mk "sid" "tok" "c"
            (some "1970-01-01T00:00:00.000Z"))))).2.1 "session:sid"
        = some (StoredJson.record (SessionRecord.mk "sid" "tok" "c"
            (some "1970-01-01T00:00:00.000Z"))) := by
  constructor
  · simp [sessionManagerGetSession, jsTruthyOptStr, KV.setKey]
  · simp [sessionManagerGetSession, jsTruthyOptStr, KV.setKey]

/-- C6 (amended). On a record whose `expires_at` parses to a time
strictly in the past, `authCallbackService.js`'s `getSession` returns
null and deletes the record, while `session-manager.js`'s `getSession`
returns null but leaves the record in place (it is only evicted by the
store's TTL). -/
theorem c6_expired_record_handling (parseDate : String → JsDate)
    (now t : Int) (sid raw : String) (r : SessionRecord)
    (st : KV StoredJson)
    (hsid : sid ≠ "")
    (hkey : st ("session:" ++ sid) = some (.record r))
    (hraw : r.expires_at = some raw)
    (hparse : parseDate raw = .valid t)
    (hpast : t < now) :
    (authCallbackGetSession parseDate now (some sid) st).1 = none
    ∧ (authCallbackGetSession parseDate now (some sid) st).2.1
        ("session:" ++ sid) = none
    ∧ (sessionManagerGetSession parseDate now (some sid) st).1 = none
    ∧ (sessionManagerGetSession parseDate now (some sid) st).2.1 = st := by
  have hnow : now ≥ t := le_of_lt hpast
  by_cases hempty : raw = ""
  · refine ⟨?_, ?_, ?_, ?_⟩
    · simp [authCallbackGetSession, jsTruthyOptStr, hsid, hkey, hraw,
        hparse, hpast]
    · simp [authCallbackGetSession, jsTruthyOptStr, hsid, hkey, hraw,
        hparse, hpast, KV.del, hkey]
    · simp [sessionManagerGetSession, jsTruthyOptStr, hsid, hkey, hraw,
        hempty]
    · simp [sessionManagerGetSession, jsTruthyOptStr, hsid, hkey, hraw,
        hempty]
  · refine ⟨?_, ?_, ?_, ?_⟩
    · simp [authCallbackGetSession, jsTruthyOptStr, hsid, hkey, hraw,
        hparse, hpast]
    · simp [authCallbackGetSession, jsTruthyOptStr, hsid, hkey, hraw,
        hparse, hpast, KV.del, hkey]
    · simp [sessionManagerGetSession, jsTruthyOptStr, hsid, hkey, hraw,
        hempty, hparse, hnow]
    · simp [sessionManagerGetSession, jsTruthyOptStr, hsid, hkey, hraw,
        hempty, hparse, hnow]

theorem c6_expired_record_handling_witness :
    (("sid" : String) ≠ ""
      ∧ (KV.setKey KV.empty "session:sid"
          (StoredJson.record (SessionRecord.mk "sid" "tok" "c"
            (some "1970-01-01T00:00:00.000Z")))) ("session:" ++ "sid")
          = some (.record (SessionRecord.mk "sid" "tok" "c"
            (some "1970-01-01T00:00:00.000Z")))
      ∧ (SessionRecord.mk "sid" "tok" "c"
          (some "1970-01-01T00:00:00.000Z")).expires_at
          = some "1970-01-01T00:00:00.000Z"
      ∧ (fun (_ : String) => JsDate.valid 0) "1970-01-01T00:00:00.000Z"
          = JsDate.valid 0
      ∧ (0 : Int) < 1000)
    ∧ ((authCallbackGetSession (fun _ => JsDate.valid 0) 1000 (some "sid")
          (KV.setKey KV.empty "session:sid"
            (StoredJson.record (SessionRecord.mk "sid" "tok" "c"
              (some "1970-01-01T00:00:00.000Z"))))).1 = none
      ∧ (authCallbackGetSession (fun _ => JsDate.valid 0) 1000 (some "sid")
          (KV.setKey KV.empty "session:sid"
            (StoredJson.record (SessionRecord.mk "sid" "tok" "c"
              (some "1970-01-01T00:00:00.000Z"))))).2.1
          ("session:" ++ "sid") = none
      ∧ (sessionManagerGetSession (fun _ => JsDate.valid 0) 1000
          (some "sid")
          (KV.setKey KV.empty "session:sid"
            (StoredJson.record (SessionRecord.mk "sid" "tok" "c"
              (some "1970-01-01T00:00:00.000Z"))))).1 = none
      ∧ (sessionManagerGetSession (fun _ => JsDate.valid 0) 1000
          (some "sid")
          (KV.setKey KV.empty "session:sid"
            (StoredJson.record (SessionRecord.mk "sid" "tok" "c"
              (some "1970-01-01T00:00:00.000Z"))))).2.1
          = KV.setKey KV.empty "session:sid"
            (StoredJson.record (SessionRecord.mk "sid" "tok" "c"
              (some "1970-01-01T00:00:00.000Z")))) :=
  ⟨⟨by decide, by simp [KV.setKey], rfl, rfl, by decide⟩,
    c6_expired_record_handling (fun _ => JsDate.valid 0) 1000 0 "sid"
      "1970-01-01T00:00:00.000Z"
      (SessionRecord.mk "sid" "tok" "c" (some "1970-01-01T00:00:00.000Z"))
      (KV.setKey KV.empty "session:sid"
        (StoredJson.record (SessionRecord.mk "sid" "tok" "c"
          (some "1970-01-01T00:00:00.000Z"))))
      (by decide) (by simp [KV.setKey]) rfl rfl (by decide)⟩

/-- C10. Both `getSession` variants, given a falsy session identifier
(null, undefined, or the empty string), return null immediately: no
store read happens and the store is returned unchanged. -/
theorem c10_falsy_session_id (parseDate : String → JsDate) (now : Int)
    (sid : Option String) (st : KV StoredJson)
    (h : jsTruthyOptStr sid = false) :
    (sessionManagerGetSession parseDate now sid st).1 = none
    ∧ (sessionManagerGetSession parseDate now sid st).2.1 = st
    ∧ (sessionManagerGetSession parseDate now sid st).2.2 = 0
    ∧ (authCallbackGetSession parseDate now sid st).1 = none
    ∧ (authCallbackGetSession parseDate now sid st).2.1 = st
    ∧ (authCallbackGetSession parseDate now sid st).2.2 = 0 := by
  simp [sessionManagerGetSession, authCallbackGetSession, h]

theorem c10_falsy_session_id_witness :
    jsTruthyOptStr (some "") = false
    ∧ ((sessionManagerGetSession (fun _ => JsDate.invalid) 0 (some "")
          KV.empty).1 = none
      ∧ (sessionManagerGetSession (fun _ => JsDate.invalid) 0 (some "")
          KV.empty).2.1 = KV.empty
      ∧ (sessionManagerGetSession (fun _ => JsDate.invalid) 0 (some "")
          KV.empty).2.2 = 0
      ∧ (authCallbackGetSession (fun _ => JsDate.invalid) 0 (some "")
          KV.empty).1 = none
      ∧ (authCallbackGetSession (fun _ => JsDate.invalid) 0 (some "")
          KV.empty).2.1 = KV.empty
      ∧ (authCallbackGetSession (fun _ => JsDate.invalid) 0 (some "")
          KV.empty).2.2 = 0) :=
  ⟨by decide,
    c10_falsy_session_id (fun _ => JsDate.invalid) 0 (some "") KV.empty
      (by decide)⟩

/-! ## Session cookie (C7)

`setCookieWithSessionId` in `session-manager.js` is the cookie-setting
operation invoked by the OAuth callback's `createSession` on successful
authentication. Its options are built from configuration values
(cookie TTL, secure flag, signing password), modelled as a parameter
record. A parallel `CookieManager` snapshot (`setSessionCookie`)
builds the same options with the lenient `Lax` policy instead. -/

/-- The configuration values the cookie options read. -/
structure CookieConfig where
  cookieTtl : Int
  cookieSecure : Bool
  cookiePassword : String

/-- The Hapi cookie options object passed to `h.state`. -/
structure CookieOptions where
  ttl : Int
  isSecure : Bool
  isHttpOnly : Bool
  isSameSite : String
  path : String
  password : String
  encoding : String
deriving DecidableEq, Repr

/-- `setCookieWithSessionId` (session-manager.js): the options given to
`h.state('session', sessionId, ...)`. -/
def setCookieWithSessionId (cfg : CookieConfig) : CookieOptions :=
  { ttl := cfg.cookieTtl, isSecure := cfg.cookieSecure,
    isHttpOnly := true, isSameSite := "Strict", path := "/",
    password := cfg.cookiePassword, encoding := "iron" }

/-- `setSessionCookie` (CookieManager snapshot): identical options
except for the lenient cross-site policy. -/
def setSessionCookie (cfg : CookieConfig) : CookieOptions :=
  { ttl := cfg.cookieTtl, isSecure := cfg.cookieSecure,
    isHttpOnly := true, isSameSite := "Lax", path := "/",
    password := cfg.cookiePassword, encoding := "iron" }

/-- C7. The cookie written on successful authentication does carry
`httpOnly`, `path=/`, the iron integrity/confidentiality encoding and
the configured TTL — but its SameSite attribute is the strict policy,
not the lenient one the claim (and the flow) requires; the sibling
`CookieManager` snapshot uses `Lax`, making the divergence internal to
the codebase. -/
theorem c7_cookie_attributes (cfg : CookieConfig) :
    (setCookieWithSessionId cfg).isSameSite = "Strict"
    ∧ (setCookieWithSessionId cfg).isSameSite ≠ "Lax"
    ∧ (setCookieWithSessionId cfg).isHttpOnly = true
    ∧ (setCookieWithSessionId cfg).path = "/"
    ∧ (setCookieWithSessionId cfg).encoding = "iron"
    ∧ (setCookieWithSessionId cfg).ttl = cfg.cookieTtl
    ∧ (setCookieWithSessionId cfg).isSecure = cfg.cookieSecure
    ∧ (setSessionCookie cfg).isSameSite = "Lax" := by
  refine ⟨rfl, by simp [setCookieWithSessionId], rfl, rfl, rfl, rfl,
    rfl, rfl⟩

/-! ## `buildAuthorizationUrl` (azure-ad-url-builder, C8)

The query string is produced by `new URLSearchParams(...)` followed by
`.toString()`, i.e. the `application/x-www-form-urlencoded`
serialization: pairs joined by `&`, each as `encode(key)=encode(value)`,
where ASCII alphanumerics and `*`, `-`, `.`, `_` pass through, the
space becomes `+`, and every other character is percent-encoded as its
uppercase-hex UTF-8 bytes. -/

/-- `OAUTH_CONSTANTS.RESPONSE_TYPE`. -/
def responseTypeConst : String := "code"

/-- `OAUTH_CONSTANTS.RESPONSE_MODE`. -/
def responseModeConst : String := "query"

/-- `OAUTH_CONSTANTS.SCOPE`. -/
def scopeConst : String := "openid profile email"

/-- `OAUTH_CONSTANTS.CODE_CHALLENGE_METHOD`. -/
def codeChallengeMethodConst : String := "S256"

/-- Uppercase hexadecimal digit. -/
def hexDigitUpper (n : Nat) : Char :=
  if n < 10 then Char.ofNat (48 + n) else Char.ofNat (55 + n)

/-- `%XY` for one byte. -/
def percentEncodeByte (b : Nat) : String :=
  "%" ++ String.singleton (hexDigitUpper (b / 16))
    ++ String.singleton (hexDigitUpper (b % 16))

/-- The UTF-8 bytes of a character. -/
def utf8Bytes (c : Char) : List Nat :=
  let n := c.toNat
  if n < 128 then [n]
  else if n < 2048 then [192 + n / 64, 128 + n % 64]
  else if n < 65536 then
    [224 + n / 4096, 128 + (n / 64) % 64, 128 + n % 64]
  else
    [240 + n / 262144, 128 + (n / 4096) % 64, 128 + (n / 64) % 64,
      128 + n % 64]

/-- Characters `application/x-www-form-urlencoded` leaves unescaped. -/
def isFormSafe (c : Char) : Bool :=
  c.isAlphanum || c = '*' || c = '-' || c = '.' || c = '_'

/-- Encoding of one character. -/
def formEncodeChar (c : Char) : String :=
  if isFormSafe c then String.singleton c
  else if c = ' ' then "+"
  else String.join ((utf8Bytes c).map percentEncodeByte)

/-- `application/x-www-form-urlencoded` encoding of a string, as
`URLSearchParams` applies to each key and value. -/
def formUrlEncode (s : String) : String :=
  String.join (s.data.map formEncodeChar)

/-- Join already-serialized `key=value` pairs with `&`. -/
def joinParams : List String → String
  | [] => ""
  | [p] => p
  | p :: ps => p ++ "&" ++ joinParams ps

/-- `URLSearchParams(pairs).toString()`. -/
def serializeParams (ps : List (String × String)) : String :=
  joinParams (ps.map fun p => formUrlEncode p.1 ++ "=" ++ formUrlEncode p.2)

/-- The `azureAd` configuration the URL builder reads; a missing value
is the empty (falsy) string. -/
structure AzureAdConfig where
  baseUrl : String
  clientId : String
  redirectUri : String
  tenantId : String
  authorizeEndpoint : String
deriving DecidableEq, Repr

/-- `buildAuthorizationUrl(state, codeChallenge)`: validate that all
five configuration values are truthy, else throw; then
`{base}/{tenant}/{authorizeEndpoint}?` followed by the
`URLSearchParams` serialization of the eight parameters in source
order. -/
def buildAuthorizationUrl (cfg : AzureAdConfig)
    (state codeChallenge : String) : Except String String :=
  if !jsTruthyStr cfg.baseUrl || !jsTruthyStr cfg.clientId
      || !jsTruthyStr cfg.redirectUri || !jsTruthyStr cfg.tenantId
      || !jsTruthyStr cfg.authorizeEndpoint then
    .error "Azure AD configuration is incomplete"
  else
    .ok (cfg.baseUrl ++ "/" ++ cfg.tenantId ++ "/"
      ++ cfg.authorizeEndpoint ++ "?"
      ++ serializeParams
        [("client_id", cfg.clientId),
          ("response_type", responseTypeConst),
          ("redirect_uri", cfg.redirectUri),
          ("response_mode", responseModeConst),
          ("scope", scopeConst),
          ("state", state),
          ("code_challenge", codeChallenge),
          ("code_challenge_method", codeChallengeMethodConst)] )

/-- The URL shape the specification dictates, written from its words:
the eight query parameters in the stated order with every value
percent-encoded. This is the spec-side definition compared against the
embedded builder. -/
def specAuthorizationUrl (cfg : AzureAdConfig)
    (state codeChallenge : String) : String :=
  cfg.baseUrl ++ "/" ++ cfg.tenantId ++ "/" ++ cfg.authorizeEndpoint
    ++ "?client_id=" ++ formUrlEncode cfg.clientId
    ++ "&response_type=code&redirect_uri=" ++ formUrlEncode cfg.redirectUri
    ++ "&response_mode=query&scope=openid+profile+email&state="
    ++ formUrlEncode state
    ++ "&code_challenge=" ++ formUrlEncode codeChallenge
    ++ "&code_challenge_method=S256"

theorem strAppendAssoc (a b c : String) : a ++ b ++ c = a ++ (b ++ c) := by
  apply String.ext
  simp [String.data_append]

theorem formUrlEncode_client_id :
    formUrlEncode "client_id" = "client_id" := by decide

theorem formUrlEncode_response_type :
    formUrlEncode "response_type" = "response_type" := by decide

theorem formUrlEncode_code : formUrlEncode "code" = "code" := by decide

theorem formUrlEncode_redirect_uri :
    formUrlEncode "redirect_uri" = "redirect_uri" := by decide

theorem formUrlEncode_response_mode :
    formUrlEncode "response_mode" = "response_mode" := by decide

theorem formUrlEncode_query : formUrlEncode "query" = "query" := by decide

theorem formUrlEncode_scope : formUrlEncode "scope" = "scope" := by decide

theorem formUrlEncode_scope_value :
    formUrlEncode "openid profile email" = "openid+profile+email" := by
  decide

theorem formUrlEncode_state : formUrlEncode "state" = "state" := by decide

theorem formUrlEncode_code_challenge :
    formUrlEncode "code_challenge" = "code_challenge" := by decide

theorem formUrlEncode_code_challenge_method :
    formUrlEncode "code_challenge_method" = "code_challenge_method" := by
  decide

theorem formUrlEncode_s256 : formUrlEncode "S256" = "S256" := by decide

/-- C8. With fully-populated configuration, `buildAuthorizationUrl`
returns exactly the URL the specification dictates: base, tenant and
authorize path joined by `/`, then the eight query parameters in order
`client_id`, `response_type=code`, `redirect_uri`, `response_mode=query`,
`scope=openid+profile+email`, `state`, `code_challenge`,
`code_challenge_method=S256`, all values form-url-encoded. -/
theorem c8_authorization_url_exact (cfg : AzureAdConfig)
    (s c : String)
    (hb : cfg.baseUrl ≠ "") (hc : cfg.clientId ≠ "")
    (hr : cfg.redirectUri ≠ "") (ht : cfg.tenantId ≠ "")
    (ha : cfg.authorizeEndpoint ≠ "") :
    buildAuthorizationUrl cfg s c = .ok (specAuthorizationUrl cfg s c) := by
  rw [buildAuthorizationUrl]
  simp only [jsTruthyStr, hb, hc, hr, ht, ha, ne_eq, not_false_eq_true,
    decide_True, Bool.not_true, Bool.false_or, Bool.or_self,
    Bool.false_eq_true, if_false, ite_false]
  rw [specAuthorizationUrl, serializeParams]
  simp only [List.map, joinParams, responseTypeConst, responseModeConst,
    scopeConst, codeChallengeMethodConst, formUrlEncode_client_id,
    formUrlEncode_response_type, formUrlEncode_code,
    formUrlEncode_redirect_uri, formUrlEncode_response_mode,
    formUrlEncode_query, formUrlEncode_scope, formUrlEncode_scope_value,
    formUrlEncode_state, formUrlEncode_code_challenge,
    formUrlEncode_code_challenge_method, formUrlEncode_s256]
  rw [show ("?client_id=" : String) = "?" ++ "client_id" ++ "=" from rfl]
  rw [show ("&response_type=code&redirect_uri=" : String)
    = "&" ++ "response_type" ++ "=" ++ "code" ++ "&" ++ "redirect_uri"
      ++ "=" from rfl]
  rw [show ("&response_mode=query&scope=openid+profile+email&state="
      : String)
    = "&" ++ "response_mode" ++ "=" ++ "query" ++ "&" ++ "scope" ++ "="
      ++ "openid+profile+email" ++ "&" ++ "state" ++ "=" from rfl]
  rw [show ("&code_challenge=" : String) = "&" ++ "code_challenge" ++ "="
    from rfl]
  rw [show ("&code_challenge_method=S256" : String)
    = "&" ++ "code_challenge_method" ++ "=" ++ "S256" from rfl]
  simp only [strAppendAssoc]

example : formUrlEncode "http://localhost:3000/auth/callback"
    = "http%3A%2F%2Flocalhost%3A3000%2Fauth%2Fcallback" := by decide

theorem c8_authorization_url_exact_witness :
    ((AzureAdConfig.mk "https://test-auth-server.com" "test-client-id"
        "redirect" "test-tenant" "oauth2/v2.0/authorize").baseUrl ≠ ""
      ∧ (AzureAdConfig.mk "https://test-auth-server.com" "test-client-id"
        "redirect" "test-tenant" "oauth2/v2.0/authorize").clientId ≠ ""
      ∧ (AzureAdConfig.mk "https://test-auth-server.com" "test-client-id"
        "redirect" "test-tenant" "oauth2/v2.0/authorize").redirectUri ≠ ""
      ∧ (AzureAdConfig.mk "https://test-auth-server.com" "test-client-id"
        "redirect" "test-tenant" "oauth2/v2.0/authorize").tenantId ≠ ""
      ∧ (AzureAdConfig.mk "https://test-auth-server.com" "test-client-id"
        "redirect" "test-tenant"
        "oauth2/v2.0/authorize").authorizeEndpoint ≠ "")
    ∧ buildAuthorizationUrl
        (AzureAdConfig.mk "https://test-auth-server.com" "test-client-id"
          "redirect" "test-tenant" "oauth2/v2.0/authorize") "S" "C"
      = .ok (specAuthorizationUrl
          (AzureAdConfig.mk "https://test-auth-server.com" "test-client-id"
            "redirect" "test-tenant" "oauth2/v2.0/authorize") "S" "C") :=
  ⟨⟨by decide, by decide, by decide, by decide, by decide⟩,
    c8_authorization_url_exact
      (AzureAdConfig.mk "https://test-auth-server.com" "test-client-id"
        "redirect" "test-tenant" "oauth2/v2.0/authorize") "S" "C"
      (by decide) (by decide) (by decide) (by decide) (by decide)⟩

end UcdAuth
